import Mathlib

set_option maxRecDepth 40000

/-!
Verification of the `gravatar` template-tag module (file
`gravatar/templatetags/gravatar.py`).

Python 2 byte strings are modelled as `List Nat` (one entry per byte).
The module's external collaborators are parameters of the embedded
functions:

* `smart_urlquote` (Django's URL escaping helper) is an abstract
  function `Bytes → Bytes`;
* the user-lookup (`User.objects.get(username=...)`) is an abstract
  function `Bytes → Option User`;
* `urllib.urlopen` and `simplejson.load` used by the profile fetch are
  abstract fallible functions.

`hashlib.md5` is modelled by a full implementation of the MD5 digest
over byte lists, and `urllib.urlencode` / `urllib.quote_plus` by their
Python 2 definitions restricted to the types that actually reach them
here (`str` and `int` values).
-/

/-- A Python 2 `str`: a list of byte values. -/
abbrev Bytes := List Nat

/-- Byte list of an ASCII string literal. -/
def bytes (s : String) : Bytes := s.data.map Char.toNat

/-- Python 2 `str.lower` on one byte (C locale: ASCII letters only). -/
def lowerByte (b : Nat) : Nat := if 65 ≤ b ∧ b ≤ 90 then b + 32 else b

/-- Python 2 `str.upper` on one byte (C locale: ASCII letters only). -/
def upperByte (b : Nat) : Nat := if 97 ≤ b ∧ b ≤ 122 then b - 32 else b

/-- Python 2 `str.lower`. -/
def pyLower (s : Bytes) : Bytes := s.map lowerByte

/-- Python 2 `str.upper`. -/
def pyUpper (s : Bytes) : Bytes := s.map upperByte

/-! ### MD5 (the digest used by `hashlib.md5`) -/

/-- Per-round sine-derived constants of MD5. -/
def md5K : List Nat :=
  [0xd76aa478, 0xe8c7b756, 0x242070db, 0xc1bdceee,
   0xf57c0faf, 0x4787c62a, 0xa8304613, 0xfd469501,
   0x698098d8, 0x8b44f7af, 0xffff5bb1, 0x895cd7be,
   0x6b901122, 0xfd987193, 0xa679438e, 0x49b40821,
   0xf61e2562, 0xc040b340, 0x265e5a51, 0xe9b6c7aa,
   0xd62f105d, 0x02441453, 0xd8a1e681, 0xe7d3fbc8,
   0x21e1cde6, 0xc33707d6, 0xf4d50d87, 0x455a14ed,
   0xa9e3e905, 0xfcefa3f8, 0x676f02d9, 0x8d2a4c8a,
   0xfffa3942, 0x8771f681, 0x6d9d6122, 0xfde5380c,
   0xa4beea44, 0x4bdecfa9, 0xf6bb4b60, 0xbebfbc70,
   0x289b7ec6, 0xeaa127fa, 0xd4ef3085, 0x04881d05,
   0xd9d4d039, 0xe6db99e5, 0x1fa27cf8, 0xc4ac5665,
   0xf4292244, 0x432aff97, 0xab9423a7, 0xfc93a039,
   0x655b59c3, 0x8f0ccc92, 0xffeff47d, 0x85845dd1,
   0x6fa87e4f, 0xfe2ce6e0, 0xa3014314, 0x4e0811a1,
   0xf7537e82, 0xbd3af235, 0x2ad7d2bb, 0xeb86d391]

/-- Per-round left-rotation amounts of MD5. -/
def md5S : List Nat :=
  [7, 12, 17, 22, 7, 12, 17, 22, 7, 12, 17, 22, 7, 12, 17, 22,
   5, 9, 14, 20, 5, 9, 14, 20, 5, 9, 14, 20, 5, 9, 14, 20,
   4, 11, 16, 23, 4, 11, 16, 23, 4, 11, 16, 23, 4, 11, 16, 23,
   6, 10, 15, 21, 6, 10, 15, 21, 6, 10, 15, 21, 6, 10, 15, 21]

/-- Rotate a 32-bit value left by `n` bits. -/
def rotl32 (x n : Nat) : Nat := ((x <<< n) + (x >>> (32 - n))) % 4294967296

/-- Bitwise complement on 32 bits. -/
def not32 (x : Nat) : Nat := x ^^^ 4294967295

/-- Little-endian 32-bit word number `j` of a 64-byte chunk. -/
def le32 (c : Bytes) (j : Nat) : Nat :=
  c.getD (4 * j) 0 + 256 * c.getD (4 * j + 1) 0 +
    65536 * c.getD (4 * j + 2) 0 + 16777216 * c.getD (4 * j + 3) 0

/-- The sixteen message words of a 64-byte chunk. -/
def chunkWords (c : Bytes) : List Nat := (List.range 16).map (le32 c)

/-- One of the 64 MD5 rounds, acting on the state `(a, b, c, d)`. -/
def md5step (M : List Nat) (st : Nat × Nat × Nat × Nat) (i : Nat) :
    Nat × Nat × Nat × Nat :=
  let a := st.1
  let b := st.2.1
  let c := st.2.2.1
  let d := st.2.2.2
  let f :=
    if i < 16 then (b &&& c) ||| (not32 b &&& d)
    else if i < 32 then (d &&& b) ||| (not32 d &&& c)
    else if i < 48 then b ^^^ c ^^^ d
    else c ^^^ (b ||| not32 d)
  let g :=
    if i < 16 then i
    else if i < 32 then (5 * i + 1) % 16
    else if i < 48 then (3 * i + 5) % 16
    else (7 * i) % 16
  let f := (f + a + md5K.getD i 0 + M.getD g 0) % 4294967296
  (d, (b + rotl32 f (md5S.getD i 0)) % 4294967296, b, c)

/-- Absorb one 64-byte chunk into the MD5 state. -/
def md5chunk (st : Nat × Nat × Nat × Nat) (c : Bytes) : Nat × Nat × Nat × Nat :=
  let r := (List.range 64).foldl (md5step (chunkWords c)) st
  ((st.1 + r.1) % 4294967296, (st.2.1 + r.2.1) % 4294967296,
   (st.2.2.1 + r.2.2.1) % 4294967296, (st.2.2.2 + r.2.2.2) % 4294967296)

/-- MD5 padding: `0x80`, zeros to 56 mod 64, then the bit length in
little-endian over 8 bytes. -/
def md5pad (msg : Bytes) : Bytes :=
  msg ++ [128] ++ List.replicate ((119 - msg.length % 64) % 64) 0 ++
    (List.range 8).map (fun i => (msg.length * 8) >>> (8 * i) % 256)

/-- Split into 64-byte chunks; the fuel is an upper bound on the number
of chunks, so structural recursion suffices and the kernel can reduce. -/
def chunksAux : Nat → Bytes → List Bytes
  | 0, _ => []
  | _, [] => []
  | n + 1, l => l.take 64 :: chunksAux n (l.drop 64)

/-- Split a byte list into 64-byte chunks. -/
def chunks (l : Bytes) : List Bytes := chunksAux l.length l

/-- Little-endian serialization of a 32-bit word. -/
def le4 (x : Nat) : Bytes := (List.range 4).map fun i => (x >>> (8 * i)) % 256

/-- Little-endian serialization of the four state words. -/
def md5final (st : Nat × Nat × Nat × Nat) : Bytes :=
  le4 st.1 ++ le4 st.2.1 ++ le4 st.2.2.1 ++ le4 st.2.2.2

/-- The 16-byte MD5 digest of a byte string. -/
def md5digestBytes (msg : Bytes) : Bytes :=
  md5final ((chunks (md5pad msg)).foldl md5chunk
    (1732584193, 4023233417, 2562383102, 271733878))

/-- Lowercase hexadecimal digit byte for a value below 16. -/
def hexDigitL (n : Nat) : Nat := if n < 10 then 48 + n else 87 + n

/-- Python's `hexdigest()`: lowercase hex encoding of the 16 digest
bytes, 32 bytes long. -/
def md5hexdigest (msg : Bytes) : Bytes :=
  (md5digestBytes msg).flatMap fun b => [hexDigitL (b / 16), hexDigitL (b % 16)]

/-! ### Python values and `urllib` helpers -/

/-- A Python value as it occurs in the query-parameter list: an `int`
(the size) or a `str` (default image, rating). -/
inductive PyVal
  | int (n : Nat)
  | str (s : Bytes)
deriving DecidableEq, Repr

/-- Python truthiness of such a value: nonzero for `int`, nonempty for
`str`. -/
def PyVal.truthy : PyVal → Bool
  | .int n => n != 0
  | .str s => !s.isEmpty

/-- Python `str()` of such a value. -/
def PyVal.pyStr : PyVal → Bytes
  | .int n => bytes (Nat.repr n)
  | .str s => s

/-- Python 2 `x or d` for an optional `int` argument (`None` and `0`
are falsy). -/
def pyOrNat (v : Option Nat) (d : Nat) : Nat :=
  match v with
  | none => d
  | some n => if n = 0 then d else n

/-- Python 2 `x or d` for an optional `str` argument (`None` and `''`
are falsy). -/
def pyOrBytes (v : Option Bytes) (d : Bytes) : Bytes :=
  match v with
  | none => d
  | some s => if s = [] then d else s

/-- Python `str()` of an `int`-or-`None` value, as interpolated by
`'%s'`. -/
def pyStrOfOptNat : Option Nat → Bytes
  | none => bytes "None"
  | some n => bytes (Nat.repr n)

/-- The characters Python 2 `urllib.quote` never escapes: ASCII
letters, digits, `_`, `.`, `-`. -/
def always_safe (b : Nat) : Bool :=
  (65 ≤ b && b ≤ 90) || (97 ≤ b && b ≤ 122) || (48 ≤ b && b ≤ 57) ||
    b == 95 || b == 46 || b == 45

/-- Uppercase hexadecimal digit byte for a value below 16. -/
def hexDigitU (n : Nat) : Nat := if n < 10 then 48 + n else 55 + n

/-- Python 2 `urllib.quote_plus` with empty `safe`: space becomes `+`,
safe bytes pass through, the rest become `%XX`. -/
def quote_plus (s : Bytes) : Bytes :=
  s.flatMap fun b =>
    if b = 32 then [43]
    else if always_safe b then [b]
    else [37, hexDigitU (b / 16), hexDigitU (b % 16)]

/-- Python 2 `urllib.urlencode(query, doseq=True)` for the scalar keys
and values used here: `quote_plus(k)=quote_plus(str(v))` joined by `&`
(byte 38); `=` is byte 61. -/
def urlencode (query : List (Bytes × PyVal)) : Bytes :=
  List.intercalate [38] (query.map fun p => quote_plus p.1 ++ [61] ++ quote_plus p.2.pyStr)

/-! ### Configuration and users -/

/-- The five module-level settings read via `getattr(settings, ...)`.
The first field is `GRAVATAR_URL_PREFIX` in the source. -/
structure Config where
  GRAVATAR_URL_BASE : Bytes
  GRAVATAR_DEFAULT_IMAGE : Bytes
  GRAVATAR_DEFAULT_RATING : Bytes
  GRAVATAR_DEFAULT_SIZE : Nat
  GRAVATAR_IMG_CLASS : Bytes
deriving DecidableEq, Repr

/-- The fallback values hard-coded in the `getattr` calls. -/
def defaultConfig : Config where
  GRAVATAR_URL_BASE := bytes "http://www.gravatar.com/"
  GRAVATAR_DEFAULT_IMAGE := []
  GRAVATAR_DEFAULT_RATING := bytes "g"
  GRAVATAR_DEFAULT_SIZE := 80
  GRAVATAR_IMG_CLASS := bytes "gravatar"

/-- Errors the module can raise: `Exception("Bad user for gravatar.")`
from `_get_user`; Python `TypeError` from `None * 2`; Python
`AttributeError` from `.username` on a `str`; and the network and
JSON-parse failures of the profile fetch (the spec's
`ExternalServiceError`). -/
inductive GravatarError
  | userNotFound
  | typeError
  | attributeError
  | network
  | parse
deriving DecidableEq, Repr

/-- A Django user record, reduced to the two fields the module reads. -/
structure User where
  username : Bytes
  email : Bytes
deriving DecidableEq, Repr

/-- The argument of the `*_for_user` tags: an already-resolved user
record or a username string. -/
inductive UserRef
  | user (u : User)
  | name (s : Bytes)
deriving DecidableEq, Repr

/-- Attribute access `user.username` on the raw argument: succeeds on a
user record, raises `AttributeError` on a `str`. -/
def UserRef.username_attr : UserRef → Except GravatarError Bytes
  | .user u => .ok u.username
  | .name _ => .error .attributeError

/-! ### The template-tag functions -/

/-- Source `_get_user`: pass a `User` through; look a string up by
username via the user model (`db`), raising on a miss. -/
def _get_user (db : Bytes → Option User) : UserRef → Except GravatarError User
  | .user u => .ok u
  | .name s =>
    match db s with
    | some u => .ok u
    | none => .error .userNotFound

/-- Source `_get_gravatar_id`: `hashlib.md5(email.lower()).hexdigest()`. -/
def _get_gravatar_id (email : Bytes) : Bytes := md5hexdigest (pyLower email)

/-- Source `gravatar_id_for_email`. -/
def gravatar_id_for_email (email : Bytes) : Bytes := _get_gravatar_id email

/-- Source `gravatar_id_for_user`. -/
def gravatar_id_for_user (db : Bytes → Option User) (user : UserRef) :
    Except GravatarError Bytes := do
  let user ← _get_user db user
  return gravatar_id_for_email user.email

/-- Source `_imgclass_attr`: `' class="%s"'` when a class is
configured, else the empty string. -/
def _imgclass_attr (cfg : Config) : Bytes :=
  if cfg.GRAVATAR_IMG_CLASS ≠ [] then
    bytes " class=\"" ++ cfg.GRAVATAR_IMG_CLASS ++ bytes "\""
  else []

/-- Source `_wrap_img_tag`: the format string
`'<img src="%s"%s alt="Avatar for %s" height="%s" width="%s"/>'`
applied to `smart_urlquote(url)`, `_imgclass_attr()`, `info`, `size`,
`size`. -/
def _wrap_img_tag (cfg : Config) (smart_urlquote : Bytes → Bytes)
    (url info : Bytes) (size : Option Nat) : Bytes :=
  bytes "<img src=\"" ++ smart_urlquote url ++ bytes "\"" ++ _imgclass_attr cfg ++
    bytes " alt=\"Avatar for " ++ info ++ bytes "\" height=\"" ++
    pyStrOfOptNat size ++ bytes "\" width=\"" ++ pyStrOfOptNat size ++ bytes "\"/>"

/-- Source `gravatar_for_email`: `<prefix>avatar/<id>`, the truthy
members of `[('d', DEFAULT_IMAGE), ('s', size or DEFAULT_SIZE),
('r', rating or DEFAULT_RATING)]` url-encoded after `?`, and the whole
URL passed through `smart_urlquote`. -/
def gravatar_for_email (cfg : Config) (smart_urlquote : Bytes → Bytes)
    (email : Bytes) (size : Option Nat) (rating : Option Bytes) : Bytes :=
  let gravatar_url := cfg.GRAVATAR_URL_BASE ++ bytes "avatar/" ++ _get_gravatar_id email
  let parameters :=
    [(bytes "d", PyVal.str cfg.GRAVATAR_DEFAULT_IMAGE),
     (bytes "s", PyVal.int (pyOrNat size cfg.GRAVATAR_DEFAULT_SIZE)),
     (bytes "r", PyVal.str (pyOrBytes rating cfg.GRAVATAR_DEFAULT_RATING))].filter
      fun p => p.2.truthy
  let gravatar_url :=
    if parameters.isEmpty then gravatar_url
    else gravatar_url ++ bytes "?" ++ urlencode parameters
  smart_urlquote gravatar_url

/-- Source `gravatar_for_user`. -/
def gravatar_for_user (db : Bytes → Option User) (cfg : Config)
    (smart_urlquote : Bytes → Bytes) (user : UserRef) (size : Option Nat)
    (rating : Option Bytes) : Except GravatarError Bytes := do
  let user ← _get_user db user
  return gravatar_for_email cfg smart_urlquote user.email size rating

/-- Source `gravatar_retina_img_for_email`: evaluates `size * 2` first
(a `TypeError` when `size` is `None`), then wraps the URL built at the
doubled size in a tag carrying the original `size`. -/
def gravatar_retina_img_for_email (cfg : Config) (smart_urlquote : Bytes → Bytes)
    (email : Bytes) (size : Option Nat) (rating : Option Bytes) :
    Except GravatarError Bytes :=
  match size with
  | none => .error .typeError
  | some n =>
    let gravatar_url := gravatar_for_email cfg smart_urlquote email (some (n * 2)) rating
    .ok (_wrap_img_tag cfg smart_urlquote gravatar_url email (some n))

/-- Source `gravatar_retina_img_for_user`: evaluates `size * 2` first,
resolves the user inside `gravatar_for_user`, then reads `.username`
off the ORIGINAL argument. -/
def gravatar_retina_img_for_user (db : Bytes → Option User) (cfg : Config)
    (smart_urlquote : Bytes → Bytes) (user : UserRef) (size : Option Nat)
    (rating : Option Bytes) : Except GravatarError Bytes :=
  match size with
  | none => .error .typeError
  | some n => do
    let gravatar_url ← gravatar_for_user db cfg smart_urlquote user (some (n * 2)) rating
    let uname ← user.username_attr
    return _wrap_img_tag cfg smart_urlquote gravatar_url uname (some n)

/-- Source `gravatar_img_for_email`. -/
def gravatar_img_for_email (cfg : Config) (smart_urlquote : Bytes → Bytes)
    (email : Bytes) (size : Option Nat) (rating : Option Bytes) : Bytes :=
  let gravatar_url := gravatar_for_email cfg smart_urlquote email size rating
  _wrap_img_tag cfg smart_urlquote gravatar_url email size

/-- Source `gravatar_img_for_user`: resolves the user inside
`gravatar_for_user`, then reads `.username` off the ORIGINAL argument. -/
def gravatar_img_for_user (db : Bytes → Option User) (cfg : Config)
    (smart_urlquote : Bytes → Bytes) (user : UserRef) (size : Option Nat)
    (rating : Option Bytes) : Except GravatarError Bytes := do
  let gravatar_url ← gravatar_for_user db cfg smart_urlquote user size rating
  let uname ← user.username_attr
  return _wrap_img_tag cfg smart_urlquote gravatar_url uname size

/-- Source `gravatar_profile_for_email`:
`simplejson.load(urllib.urlopen("%s%s.json" % (prefix, id)))`, with the
two collaborators abstract. -/
def gravatar_profile_for_email {J : Type} (urlopen : Bytes → Except GravatarError Bytes)
    (load : Bytes → Except GravatarError J) (cfg : Config) (email : Bytes) :
    Except GravatarError J := do
  let gravatar_url := cfg.GRAVATAR_URL_BASE ++ _get_gravatar_id email ++ bytes ".json"
  let body ← urlopen gravatar_url
  load body

/-- Source `gravatar_profile_for_user`. -/
def gravatar_profile_for_user {J : Type} (urlopen : Bytes → Except GravatarError Bytes)
    (load : Bytes → Except GravatarError J) (db : Bytes → Option User) (cfg : Config)
    (user : UserRef) : Except GravatarError J := do
  let user ← _get_user db user
  gravatar_profile_for_email urlopen load cfg user.email

/-! ### Spec-side views and concrete fixtures -/

/-- The effective query parameters as the spec describes them: one
entry per parameter, in the fixed order default-image, size, rating,
each present exactly when its effective value is truthy. -/
def effParams (cfg : Config) (size : Option Nat) (rating : Option Bytes) :
    List (Bytes × PyVal) :=
  (if cfg.GRAVATAR_DEFAULT_IMAGE ≠ [] then
    [(bytes "d", PyVal.str cfg.GRAVATAR_DEFAULT_IMAGE)] else []) ++
  (if pyOrNat size cfg.GRAVATAR_DEFAULT_SIZE ≠ 0 then
    [(bytes "s", PyVal.int (pyOrNat size cfg.GRAVATAR_DEFAULT_SIZE))] else []) ++
  (if pyOrBytes rating cfg.GRAVATAR_DEFAULT_RATING ≠ [] then
    [(bytes "r", PyVal.str (pyOrBytes rating cfg.GRAVATAR_DEFAULT_RATING))] else [])

/-- The query-string suffix of the avatar URL: empty when no effective
parameter survives, otherwise `?` followed by the url-encoding. -/
def queryString (cfg : Config) (size : Option Nat) (rating : Option Bytes) : Bytes :=
  if effParams cfg size rating = [] then []
  else bytes "?" ++ urlencode (effParams cfg size rating)

/-- One rendered HTML attribute `key="value"` (`=` is byte 61, `"` is
byte 34). -/
def renderAttr (a : Bytes × Bytes) : Bytes := a.1 ++ [61, 34] ++ a.2 ++ [34]

/-- Space-separated rendering of an attribute list (space is byte 32). -/
def renderAttrs : List (Bytes × Bytes) → Bytes
  | [] => []
  | [a] => renderAttr a
  | a :: rest => renderAttr a ++ [32] ++ renderAttrs rest

/-- The attribute list of the generated image tag: `src`, the optional
`class`, `alt`, `height`, `width`. -/
def imgAttrs (cfg : Config) (smart_urlquote : Bytes → Bytes) (url info : Bytes)
    (size : Option Nat) : List (Bytes × Bytes) :=
  [(bytes "src", smart_urlquote url)] ++
    (if cfg.GRAVATAR_IMG_CLASS ≠ [] then
      [(bytes "class", cfg.GRAVATAR_IMG_CLASS)] else []) ++
    [(bytes "alt", bytes "Avatar for " ++ info),
     (bytes "height", pyStrOfOptNat size),
     (bytes "width", pyStrOfOptNat size)]

/-- Unwrap a successful result, defaulting to the empty string. -/
def okD (e : Except GravatarError Bytes) : Bytes :=
  match e with
  | .ok b => b
  | .error _ => []

/-- Sample email used throughout the module's docstrings. -/
def someoneEmail : Bytes := bytes "someone@example.com"

/-- Sample user record for the username used in the docstrings. -/
def user0 : User where
  username := bytes "jtauber"
  email := bytes "jtauber@example.com"

/-- Sample user table: exactly one user, `jtauber`. -/
def db0 : Bytes → Option User := fun s =>
  if s = bytes "jtauber" then some user0 else none

/-- A configuration whose default image, rating, size and class are all
falsy. -/
def cfgBare : Config where
  GRAVATAR_URL_BASE := bytes "http://www.gravatar.com/"
  GRAVATAR_DEFAULT_IMAGE := []
  GRAVATAR_DEFAULT_RATING := []
  GRAVATAR_DEFAULT_SIZE := 0
  GRAVATAR_IMG_CLASS := []

/-- Sample network collaborator: answers the profile URL of
`someoneEmail` with the JSON body `[]`, fails with a network error on
everything else. -/
def urlopen0 : Bytes → Except GravatarError Bytes := fun u =>
  if u = bytes "http://www.gravatar.com/16d113840f999444259f73bac9ab8b10.json" then
    Except.ok (bytes "[]")
  else Except.error GravatarError.network

/-- Sample JSON parser: accepts exactly the body `[]`, fails with a
parse error on everything else. -/
def load0 : Bytes → Except GravatarError Bytes := fun b =>
  if b = bytes "[]" then Except.ok (bytes "[]") else Except.error GravatarError.parse

/-! ### Sanity checks of the MD5 model -/

/-- MD5 of the empty string matches the published test vector. -/
theorem md5hexdigest_empty :
    md5hexdigest [] = bytes "d41d8cd98f00b204e9800998ecf8427e" := by decide

/-- MD5 of `"abc"` matches the published test vector. -/
theorem md5hexdigest_abc :
    md5hexdigest (bytes "abc") = bytes "900150983cd24fb0d6963f7d28e17f72" := by
  decide

/-! ### Helper lemmas -/

/-- Lower-casing absorbs upper-casing, byte by byte. -/
theorem lowerByte_upperByte (b : Nat) : lowerByte (upperByte b) = lowerByte b := by
  unfold lowerByte upperByte
  split_ifs <;> omega

/-- Every byte of a little-endian word serialization is below 256. -/
theorem mem_le4 {x b : Nat} (h : b ∈ le4 x) : b < 256 := by
  simp only [le4, List.mem_map, List.mem_range] at h
  obtain ⟨i, _, rfl⟩ := h
  exact Nat.mod_lt _ (by norm_num)

/-- A little-endian word serialization has four bytes. -/
theorem length_le4 (x : Nat) : (le4 x).length = 4 := by simp [le4]

/-- Every byte of a serialized MD5 state is below 256. -/
theorem mem_md5final_lt {st : Nat × Nat × Nat × Nat} {b : Nat}
    (h : b ∈ md5final st) : b < 256 := by
  simp only [md5final, List.mem_append] at h
  rcases h with ((h | h) | h) | h <;> exact mem_le4 h

/-- Every byte of an MD5 digest is below 256. -/
theorem mem_md5digestBytes_lt {msg : Bytes} {b : Nat} (h : b ∈ md5digestBytes msg) :
    b < 256 := by
  rw [md5digestBytes] at h
  exact mem_md5final_lt h

/-- An MD5 digest has sixteen bytes. -/
theorem length_md5digestBytes (msg : Bytes) : (md5digestBytes msg).length = 16 := by
  simp [md5digestBytes, md5final, length_le4]

/-- Hex-encoding doubles the length. -/
theorem length_hexpairs (l : List Nat) :
    (l.flatMap fun b => [hexDigitL (b / 16), hexDigitL (b % 16)]).length =
      2 * l.length := by
  induction l with
  | nil => rfl
  | cons a t ih =>
    simp only [List.flatMap_cons, List.length_append, List.length_cons,
      List.length_nil, ih, List.length_cons]
    omega

/-- Hex-encoding bytes below 256 yields only lowercase hex digit bytes
(`0`-`9` are 48-57, `a`-`f` are 97-102). -/
theorem mem_hexpairs {l : List Nat} (hl : ∀ b ∈ l, b < 256) {c : Nat}
    (hc : c ∈ l.flatMap fun b => [hexDigitL (b / 16), hexDigitL (b % 16)]) :
    (48 ≤ c ∧ c ≤ 57) ∨ (97 ≤ c ∧ c ≤ 102) := by
  simp only [List.mem_flatMap, List.mem_cons, List.not_mem_nil, or_false] at hc
  obtain ⟨b, hb, hcb⟩ := hc
  have hb2 := hl b hb
  rcases hcb with rfl | rfl <;> (unfold hexDigitL; split_ifs <;> omega)

/-! ### Claim theorems -/

/-- C2: `gravatar_id_for_email` is the lowercase hexadecimal MD5 digest
of the lower-cased email: it equals `md5hexdigest` of the lower-cased
email, is 32 bytes long, uses only the lowercase hex alphabet, and is a
deterministic function of the lower-cased email. -/
theorem C2_identity_token_is_md5_of_lowered (email : Bytes) :
    gravatar_id_for_email email = md5hexdigest (pyLower email) ∧
    (gravatar_id_for_email email).length = 32 ∧
    (∀ b ∈ gravatar_id_for_email email, (48 ≤ b ∧ b ≤ 57) ∨ (97 ≤ b ∧ b ≤ 102)) ∧
    ∀ email2 : Bytes, pyLower email = pyLower email2 →
      gravatar_id_for_email email = gravatar_id_for_email email2 := by
  refine ⟨rfl, ?_, ?_, ?_⟩
  · show (md5hexdigest (pyLower email)).length = 32
    unfold md5hexdigest
    rw [length_hexpairs, length_md5digestBytes]
  · intro b hb
    exact mem_hexpairs (fun c hc => mem_md5digestBytes_lt hc) hb
  · intro email2 h
    unfold gravatar_id_for_email _get_gravatar_id
    rw [h]

/-- Witness for C2 at concrete inputs: byte 57 (`'9'`) of the digest of
`"abc"` is a hex digit, and `"ABC"` and `"abc"` share one token. -/
theorem C2_identity_token_is_md5_of_lowered_witness :
    ((48 ≤ 57 ∧ 57 ≤ 57) ∨ (97 ≤ 57 ∧ 57 ≤ 102)) ∧
    gravatar_id_for_email (bytes "ABC") = gravatar_id_for_email (bytes "abc") :=
  ⟨(C2_identity_token_is_md5_of_lowered (bytes "abc")).2.2.1 57 (by decide),
   (C2_identity_token_is_md5_of_lowered (bytes "ABC")).2.2.2 (bytes "abc") (by decide)⟩

/-- C3: the identity token is case-insensitive: upper-casing the email
does not change it. -/
theorem C3_identity_token_case_insensitive (e : Bytes) :
    gravatar_id_for_email (pyUpper e) = gravatar_id_for_email e := by
  unfold gravatar_id_for_email _get_gravatar_id
  have h : pyLower (pyUpper e) = pyLower e := by
    simp only [pyLower, pyUpper, List.map_map]
    exact List.map_congr_left fun a _ => lowerByte_upperByte a
  rw [h]

/-- C4 counterexample: with the default configuration, an explicit size
of 0 does NOT drop the `s=` parameter; the default 80 is substituted
and the URL carries `s=80`. -/
theorem C4_zero_size_counterexample :
    gravatar_for_email defaultConfig id someoneEmail (some 0) none =
      bytes "http://www.gravatar.com/avatar/16d113840f999444259f73bac9ab8b10?s=80&r=g" ∧
    bytes "s=80" <:+: gravatar_for_email defaultConfig id someoneEmail (some 0) none :=
  ⟨by decide, by decide⟩

/-- C4 (amended): an explicit size of 0 is treated identically to
passing no size at all — the configured default is substituted via the
`size or DEFAULT_SIZE` semantics, so the two calls agree for every
configuration, escaper, email and rating. -/
theorem C4_zero_size_equals_unset (cfg : Config) (squote : Bytes → Bytes)
    (email : Bytes) (rating : Option Bytes) :
    gravatar_for_email cfg squote email (some 0) rating =
      gravatar_for_email cfg squote email none rating := rfl

/-- C10: both retina variants fail with a `TypeError` when called
without a size, for every user reference — `size * 2` is evaluated on
the raw argument before anything else. -/
theorem C10_retina_requires_size (db : Bytes → Option User) (cfg : Config)
    (squote : Bytes → Bytes) (email : Bytes) (rating : Option Bytes) (ref : UserRef) :
    gravatar_retina_img_for_email cfg squote email none rating =
      Except.error GravatarError.typeError ∧
    gravatar_retina_img_for_user db cfg squote ref none rating =
      Except.error GravatarError.typeError :=
  ⟨rfl, rfl⟩

/-- C6: the user-resolution step: a string identifier with no matching
user fails with the not-found error; a matching identifier yields that
user and, mapped through the email field, that user's email; an
already-resolved user record passes through untouched for every lookup
table. -/
theorem C6_resolve_user (db : Bytes → Option User) (s : Bytes) (u : User) :
    (db s = none →
      _get_user db (UserRef.name s) = Except.error GravatarError.userNotFound) ∧
    (db s = some u →
      _get_user db (UserRef.name s) = Except.ok u ∧
      (_get_user db (UserRef.name s)).map User.email = Except.ok u.email) ∧
    _get_user db (UserRef.user u) = Except.ok u := by
  refine ⟨fun h => ?_, fun h => ⟨?_, ?_⟩, rfl⟩ <;>
    simp [_get_user, h, Except.map]

/-- Witness for C6: in the one-user table `db0`, `nosuch` is rejected
and `jtauber` resolves to `user0`. -/
theorem C6_resolve_user_witness :
    _get_user db0 (UserRef.name (bytes "nosuch")) =
      Except.error GravatarError.userNotFound ∧
    _get_user db0 (UserRef.name (bytes "jtauber")) = Except.ok user0 :=
  ⟨(C6_resolve_user db0 (bytes "nosuch") user0).1 (by decide),
   ((C6_resolve_user db0 (bytes "jtauber") user0).2.1 (by decide)).1⟩

/-- C7: evaluation of the for-user image tags at the documented
string-username input: the user `jtauber` exists, and the plain URL
variant composes with resolution as claimed, yet both image variants
fail with an `AttributeError` because the source reads `.username` off
the original string argument instead of the resolved user. -/
theorem C7_img_for_user_string_input_crashes :
    db0 (bytes "jtauber") = some user0 ∧
    gravatar_for_user db0 defaultConfig id (UserRef.name (bytes "jtauber"))
        (some 48) (some (bytes "pg")) =
      Except.ok (gravatar_for_email defaultConfig id user0.email
        (some 48) (some (bytes "pg"))) ∧
    gravatar_img_for_user db0 defaultConfig id (UserRef.name (bytes "jtauber"))
        (some 48) (some (bytes "pg")) =
      Except.error GravatarError.attributeError ∧
    gravatar_retina_img_for_user db0 defaultConfig id (UserRef.name (bytes "jtauber"))
        (some 48) (some (bytes "pg")) =
      Except.error GravatarError.attributeError :=
  ⟨rfl, rfl, rfl, rfl⟩

/-- C9: the profile fetch requests exactly `<prefix><token>.json` (no
`avatar/` segment, no query string) and binds the parser over the
response; network errors and parse errors each propagate unchanged, and
a doubly successful fetch returns the parsed body. -/
theorem C9_profile_fetch_propagates {J : Type}
    (urlopen : Bytes → Except GravatarError Bytes)
    (load : Bytes → Except GravatarError J) (cfg : Config) (email : Bytes) :
    gravatar_profile_for_email urlopen load cfg email =
      (urlopen (cfg.GRAVATAR_URL_BASE ++ _get_gravatar_id email ++ bytes ".json")).bind
        load ∧
    (∀ e, urlopen (cfg.GRAVATAR_URL_BASE ++ _get_gravatar_id email ++ bytes ".json") =
        Except.error e →
      gravatar_profile_for_email urlopen load cfg email = Except.error e) ∧
    (∀ body e,
      urlopen (cfg.GRAVATAR_URL_BASE ++ _get_gravatar_id email ++ bytes ".json") =
        Except.ok body →
      load body = Except.error e →
      gravatar_profile_for_email urlopen load cfg email = Except.error e) ∧
    (∀ body j,
      urlopen (cfg.GRAVATAR_URL_BASE ++ _get_gravatar_id email ++ bytes ".json") =
        Except.ok body →
      load body = Except.ok j →
      gravatar_profile_for_email urlopen load cfg email = Except.ok j) := by
  refine ⟨rfl, fun e h => ?_, fun body e h1 h2 => ?_, fun body j h1 h2 => ?_⟩
  · simp only [gravatar_profile_for_email]
    rw [h]
    rfl
  · simp only [gravatar_profile_for_email]
    rw [h1, ← h2]
    rfl
  · simp only [gravatar_profile_for_email]
    rw [h1, ← h2]
    rfl

/-- Witness for C9: with the sample collaborators the fetch succeeds
and returns the parsed body, and with an always-failing network it
propagates the network error. -/
theorem C9_profile_fetch_propagates_witness :
    gravatar_profile_for_email urlopen0 load0 defaultConfig someoneEmail =
      Except.ok (bytes "[]") ∧
    gravatar_profile_for_email (fun _ => Except.error GravatarError.network) load0
        defaultConfig someoneEmail =
      Except.error GravatarError.network :=
  ⟨(C9_profile_fetch_propagates urlopen0 load0 defaultConfig someoneEmail).2.2.2
      (bytes "[]") (bytes "[]") rfl rfl,
   (C9_profile_fetch_propagates (fun _ => Except.error GravatarError.network) load0
      defaultConfig someoneEmail).2.1 GravatarError.network rfl⟩

/-- C5: the retina variant equals the normal image-tag path with the
URL built at the doubled size and the tag carrying the original size;
concretely, at size 48 and rating `pg` the emitted tag carries `s=96`
in the URL but `height="48"` and `width="48"`. -/
theorem C5_retina_doubles_url_size_only (cfg : Config) (squote : Bytes → Bytes)
    (email : Bytes) (n : Nat) (rating : Option Bytes) :
    gravatar_retina_img_for_email cfg squote email (some n) rating =
      Except.ok (_wrap_img_tag cfg squote
        (gravatar_for_email cfg squote email (some (n * 2)) rating) email (some n)) ∧
    bytes "s=96" <:+:
      okD (gravatar_retina_img_for_email defaultConfig id someoneEmail
        (some 48) (some (bytes "pg"))) ∧
    bytes "height=\"48\"" <:+:
      okD (gravatar_retina_img_for_email defaultConfig id someoneEmail
        (some 48) (some (bytes "pg"))) ∧
    bytes "width=\"48\"" <:+:
      okD (gravatar_retina_img_for_email defaultConfig id someoneEmail
        (some 48) (some (bytes "pg"))) :=
  ⟨rfl, by decide, by decide, by decide⟩

/-- C8 counterexample: the alt attribute's value is not the provided
text itself — for text `x` the tag carries `alt="Avatar for x"`, and no
`alt="x"` occurs in it. -/
theorem C8_alt_text_counterexample :
    _wrap_img_tag defaultConfig id (bytes "u") (bytes "x") (some 48) =
      bytes "<img src=\"u\" class=\"gravatar\" alt=\"Avatar for x\" height=\"48\" width=\"48\"/>" ∧
    ¬ bytes "alt=\"x\"" <:+: _wrap_img_tag defaultConfig id (bytes "u") (bytes "x") (some 48) :=
  ⟨by decide, by decide⟩

/-- C8 (amended): `_wrap_img_tag` renders exactly the attribute list
`src`, optional `class`, `alt`, `height`, `width` as a self-closing
`img` element; that list has exactly one `src` attribute holding the
escaped URL, exactly one `alt` attribute holding `Avatar for ` followed
by the provided text, `height` and `width` attributes both rendering
the given size, and a `class` attribute exactly when a class name is
configured. -/
theorem C8_image_tag_well_formed (cfg : Config) (squote : Bytes → Bytes)
    (url info : Bytes) (size : Option Nat) :
    _wrap_img_tag cfg squote url info size =
      bytes "<img " ++ renderAttrs (imgAttrs cfg squote url info size) ++ bytes "/>" ∧
    (imgAttrs cfg squote url info size).filter (fun a => a.1 == bytes "src") =
      [(bytes "src", squote url)] ∧
    (imgAttrs cfg squote url info size).filter (fun a => a.1 == bytes "alt") =
      [(bytes "alt", bytes "Avatar for " ++ info)] ∧
    (imgAttrs cfg squote url info size).filter (fun a => a.1 == bytes "height") =
      [(bytes "height", pyStrOfOptNat size)] ∧
    (imgAttrs cfg squote url info size).filter (fun a => a.1 == bytes "width") =
      [(bytes "width", pyStrOfOptNat size)] ∧
    (imgAttrs cfg squote url info size).filter (fun a => a.1 == bytes "class") =
      (if cfg.GRAVATAR_IMG_CLASS ≠ [] then
        [(bytes "class", cfg.GRAVATAR_IMG_CLASS)] else []) := by
  refine ⟨?_, ?_, ?_, ?_, ?_, ?_⟩ <;>
    rcases hc : cfg.GRAVATAR_IMG_CLASS with _ | ⟨b, bs⟩ <;>
      simp only [_wrap_img_tag, _imgclass_attr, imgAttrs, renderAttrs, renderAttr, hc,
        ne_eq, List.cons_ne_nil, not_false_iff, if_true, reduceIte,
        List.append_assoc, List.cons_append, List.nil_append] <;>
      rfl

/-- C1: `gravatar_for_email` escapes `<prefix>avatar/<token>` followed
by the query string that url-encodes, in the fixed order `d`, `s`, `r`,
exactly the parameters whose effective value (argument, or configured
default when the argument is falsy) is truthy; in particular, when all
three effective values are falsy the result is the escaped
`<prefix>avatar/<token>` with no query string appended. -/
theorem C1_buildURL_structure (cfg : Config) (squote : Bytes → Bytes)
    (email : Bytes) (size : Option Nat) (rating : Option Bytes) :
    gravatar_for_email cfg squote email size rating =
      squote (cfg.GRAVATAR_URL_BASE ++ bytes "avatar/" ++ _get_gravatar_id email ++
        queryString cfg size rating) ∧
    (cfg.GRAVATAR_DEFAULT_IMAGE = [] → pyOrNat size cfg.GRAVATAR_DEFAULT_SIZE = 0 →
      pyOrBytes rating cfg.GRAVATAR_DEFAULT_RATING = [] →
      gravatar_for_email cfg squote email size rating =
        squote (cfg.GRAVATAR_URL_BASE ++ bytes "avatar/" ++ _get_gravatar_id email)) := by
  have main : gravatar_for_email cfg squote email size rating =
      squote (cfg.GRAVATAR_URL_BASE ++ bytes "avatar/" ++ _get_gravatar_id email ++
        queryString cfg size rating) := by
    simp only [gravatar_for_email, queryString, effParams]
    generalize cfg.GRAVATAR_DEFAULT_IMAGE = dI
    generalize pyOrNat size cfg.GRAVATAR_DEFAULT_SIZE = sz
    generalize pyOrBytes rating cfg.GRAVATAR_DEFAULT_RATING = rt
    rcases dI with _ | ⟨x, xs⟩ <;> rcases sz with _ | m <;> rcases rt with _ | ⟨y, ys⟩ <;>
      simp only [PyVal.truthy, List.filter_cons, List.filter_nil, List.isEmpty,
        ne_eq, List.cons_ne_nil, not_false_iff, if_true, reduceIte,
        List.append_assoc, List.append_nil, List.nil_append, List.cons_append] <;>
      rfl
  refine ⟨main, fun h1 h2 h3 => ?_⟩
  rw [main]
  simp [queryString, effParams, h1, h2, h3]

/-- Witness for C1: with every default falsy and no explicit
parameters, the URL for `someone@example.com` is exactly the escaped
`<prefix>avatar/<token>`. -/
theorem C1_buildURL_structure_witness :
    gravatar_for_email cfgBare id someoneEmail none none =
      id (cfgBare.GRAVATAR_URL_BASE ++ bytes "avatar/" ++ _get_gravatar_id someoneEmail) :=
  (C1_buildURL_structure cfgBare id someoneEmail none none).2 rfl rfl rfl
